import Mathlib

/-!
Verification of `src/lambda/rollback-trigger/lambda_function.py`.

The Python handler performs external effects (GitHub REST calls, DynamoDB
put/update, wall-clock reads).  We embed it shallowly: an `Env` record
prescribes the outcome of every external interaction (an `Except String α`
value models a Python call that either returns or raises, with the raised
exception's message as the error string), and each function additionally
returns the list of external calls it attempted, in order.
-/

namespace Rollback

/-- A GitHub workflow run, with the fields the source reads:
`runs[0]['artifacts_url']`, `runs[0]['head_sha']`, `runs[0]['id']`. -/
structure Run where
  id : Nat
  artifacts_url : String
  head_sha : String
deriving Repr, DecidableEq

/-- A GitHub artifact, with the fields the source reads:
`artifact['name']`, `artifact['archive_download_url']`. -/
structure Artifact where
  name : String
  archive_download_url : String
deriving Repr, DecidableEq

/-- The parsed request body.  `none` models an absent key (Python
`body.get(k)` returning the default). -/
structure Body where
  environment : Option String := none
  rollback_type : Option String := none
  image_tag : Option String := none
  user_id : Option String := none
  reason : Option String := none
deriving Repr, DecidableEq

/-- The `inputs` object of the dispatch POST payload. -/
structure DispatchInputs where
  environment : String
  rollback_type : String
  image_tag : String
  confirm : String
deriving Repr, DecidableEq

/-- The JSON payload of the dispatch POST (`{'ref': ..., 'inputs': ...}`). -/
structure DispatchPayload where
  ref : String
  inputs : DispatchInputs
deriving Repr, DecidableEq

/-- The DynamoDB item written by `log_rollback_request`. -/
structure AuditItem where
  audit_id : String
  timestamp : String
  user_id : String
  environment : String
  rollback_type : String
  image_tag : String
  reason : String
  status : String
  workflow_run_id : Option String
deriving Repr, DecidableEq

/-- One attempted external call, in the order the source makes them. -/
inductive Effect where
  | githubGetDeployRuns
  | githubGetArtifacts (url : String)
  | githubDownloadArtifact (url : String)
  | githubDispatch (payload : DispatchPayload)
  | githubGetRollbackRuns
  | auditPut (item : AuditItem)
  | auditUpdate (audit_id : String) (workflow_run_id : String) (status : String)
deriving Repr, DecidableEq

/-- Prescribed outcomes of all external interactions of one invocation.
`Except.error msg` models the Python call raising an exception whose
message is `msg`; `Except.ok` models a normal return (for HTTP calls,
after `raise_for_status`, i.e. a 2xx response with the given parsed
payload). -/
structure Env where
  /-- Outcome of `json.loads` on a string body. -/
  parseJson : String → Except String Body
  /-- `GET .../workflows/deploy.yml/runs?status=success&per_page=5`:
  the `workflow_runs` list (most recent first), or a raised exception. -/
  deployRuns : Except String (List Run)
  /-- `GET <artifacts_url>`: the `artifacts` list, keyed by URL. -/
  artifactsOf : String → Except String (List Artifact)
  /-- `GET <archive_download_url>` (payload discarded by the source). -/
  downloadOf : String → Except String Unit
  /-- `POST .../workflows/rollback.yml/dispatches` after `raise_for_status`. -/
  dispatchResult : Except String Unit
  /-- `GET .../workflows/rollback.yml/runs?per_page=1`: the
  `workflow_runs` list, or a raised exception. -/
  rollbackRuns : Except String (List Run)
  /-- `table.put_item(...)` outcome. -/
  putItemResult : Except String Unit
  /-- `table.update_item(...)` outcome. -/
  updateItemResult : Except String Unit
  /-- `int(datetime.utcnow().timestamp())` during this invocation. -/
  now : Nat
  /-- `datetime.utcnow().isoformat()` during this invocation. -/
  nowIso : String
  /-- `GITHUB_REPO_OWNER` (defaults to `Softbank-mango`). -/
  repoOwner : String := "Softbank-mango"
  /-- `GITHUB_REPO_NAME` (defaults to `deplight-infra`). -/
  repoName : String := "deplight-infra"

/-- The incoming `event.get('body')`: absent, a JSON string, or an
already-structured object. -/
inductive EventBody where
  | absent
  | str (s : String)
  | obj (b : Body)
deriving Repr, DecidableEq

/-- The `data` object of a successful response body. -/
structure SuccessData where
  audit_id : String
  workflow_run_id : String
  environment : String
  rollback_type : String
  image_tag : String
  estimated_duration : String
  monitor_url : String
deriving Repr, DecidableEq

/-- The decoded JSON of a response body: either
`{'status': 'error', 'message': ...}` or
`{'status': 'success', 'message': ..., 'data': ...}`. -/
inductive RespBody where
  | err (message : String)
  | success (message : String) (data : SuccessData)
deriving Repr, DecidableEq

/-- The handler's return value (`statusCode`, `headers`, decoded `body`). -/
structure Response where
  statusCode : Nat
  headers : List (String × String)
  body : RespBody
deriving Repr, DecidableEq

/-- Python string falsiness of an optional field: `not x` is true when the
key is absent or the value is the empty string. -/
def falsy : Option String → Bool
  | none => true
  | some s => s.isEmpty

/-- `error_response(status_code, message)` from the source. -/
def error_response (status_code : Nat) (message : String) : Response :=
  { statusCode := status_code
    headers := [("Content-Type", "application/json"),
                ("Access-Control-Allow-Origin", "*")]
    body := RespBody.err message }

/-- `get_last_successful_image_tag(environment)` from the source:
lists recent successful deploy runs, inspects the latest run's artifacts
for `last-successful-deployment-<environment>`, and on a match downloads
the artifact (discarding it) and returns the first 7 characters of the
run's head SHA.  Every exception is caught and turned into `none`.
Also returns the list of attempted external calls. -/
def get_last_successful_image_tag (env : Env) (environment : String) :
    Option String × List Effect :=
  match env.deployRuns with
  | .error _ => (none, [.githubGetDeployRuns])
  | .ok [] => (none, [.githubGetDeployRuns])
  | .ok (latest_run :: _) =>
    match env.artifactsOf latest_run.artifacts_url with
    | .error _ =>
        (none, [.githubGetDeployRuns, .githubGetArtifacts latest_run.artifacts_url])
    | .ok artifacts =>
      match artifacts.find?
          (fun a => a.name == "last-successful-deployment-" ++ environment) with
      | some artifact =>
        match env.downloadOf artifact.archive_download_url with
        | .error _ =>
            (none, [.githubGetDeployRuns,
                    .githubGetArtifacts latest_run.artifacts_url,
                    .githubDownloadArtifact artifact.archive_download_url])
        | .ok _ =>
            (some (latest_run.head_sha.take 7),
             [.githubGetDeployRuns,
              .githubGetArtifacts latest_run.artifacts_url,
              .githubDownloadArtifact artifact.archive_download_url])
      | none =>
          (none, [.githubGetDeployRuns, .githubGetArtifacts latest_run.artifacts_url])

/-- `trigger_github_workflow(environment, rollback_type, image_tag)` from
the source: POSTs the dispatch (any non-2xx raises and propagates), waits,
then queries the most recent run of the rollback workflow; returns that
run's id as a string, or the sentinel `"unknown"` when the list is empty.
`Except.error` models a propagating exception. -/
def trigger_github_workflow (env : Env)
    (environment rollback_type image_tag : String) :
    Except String String × List Effect :=
  let payload : DispatchPayload :=
    { ref := "roll-back"
      inputs := { environment := environment, rollback_type := rollback_type,
                  image_tag := image_tag, confirm := "ROLLBACK" } }
  match env.dispatchResult with
  | .error e => (.error e, [.githubDispatch payload])
  | .ok _ =>
    match env.rollbackRuns with
    | .error e => (.error e, [.githubDispatch payload, .githubGetRollbackRuns])
    | .ok [] => (.ok "unknown", [.githubDispatch payload, .githubGetRollbackRuns])
    | .ok (r :: _) =>
        (.ok (toString r.id), [.githubDispatch payload, .githubGetRollbackRuns])

/-- `log_rollback_request(...)` from the source: writes the audit item with
`status='initiated'` and `workflow_run_id=None` under the id
`<environment>-<epoch-seconds>`; on any persistence failure returns the
fallback id `audit-<epoch-seconds>` instead of raising. -/
def log_rollback_request (env : Env)
    (user_id environment rollback_type image_tag reason : String) :
    String × List Effect :=
  let audit_id := environment ++ "-" ++ toString env.now
  let item : AuditItem :=
    { audit_id := audit_id, timestamp := env.nowIso, user_id := user_id
      environment := environment, rollback_type := rollback_type
      image_tag := image_tag, reason := reason, status := "initiated"
      workflow_run_id := none }
  match env.putItemResult with
  | .ok _ => (audit_id, [.auditPut item])
  | .error _ => ("audit-" ++ toString env.now, [.auditPut item])

/-- `update_audit_log(audit_id, workflow_run_id)` from the source: sets
`workflow_run_id` and `status='triggered'`; any failure is logged and
swallowed, so the function always returns normally. -/
def update_audit_log (env : Env) (audit_id workflow_run_id : String) :
    Unit × List Effect :=
  match env.updateItemResult with
  | .ok _ => ((), [.auditUpdate audit_id workflow_run_id "triggered"])
  | .error _ => ((), [.auditUpdate audit_id workflow_run_id "triggered"])

/-- `event.get('body')` handling at the top of `lambda_handler`: an absent
body becomes `{}`, a string body goes through `json.loads` (which may
raise), a structured body is used as-is. -/
def parseBody (env : Env) (event : EventBody) : Except String Body :=
  match event with
  | .absent => .ok {}
  | .str s => env.parseJson s
  | .obj b => .ok b

/-- The headers of the 200 response in `lambda_handler`. -/
def successHeaders : List (String × String) :=
  [("Content-Type", "application/json"),
   ("Access-Control-Allow-Origin", "*"),
   ("Access-Control-Allow-Headers", "Content-Type"),
   ("Access-Control-Allow-Methods", "POST, OPTIONS")]

/-- The tail of `lambda_handler` after validation and image-tag
resolution: audit create, workflow dispatch (whose raised exception is
caught by the handler's outer `except` as status 500 with
`Internal server error: <msg>`), audit update, and the 200 response.
`tr1` is the trace accumulated before this point. -/
def dispatchPhase (env : Env)
    (environment rollback_type image_tag user_id reason : String)
    (tr1 : List Effect) : Response × List Effect :=
  let audit_id :=
    (log_rollback_request env user_id environment rollback_type image_tag reason).1
  let tr2 :=
    (log_rollback_request env user_id environment rollback_type image_tag reason).2
  let wres := trigger_github_workflow env environment rollback_type image_tag
  match wres.1 with
  | .error e =>
      (error_response 500 ("Internal server error: " ++ e), tr1 ++ tr2 ++ wres.2)
  | .ok workflow_run_id =>
      let tr4 := (update_audit_log env audit_id workflow_run_id).2
      ({ statusCode := 200
         headers := successHeaders
         body := RespBody.success "Rollback initiated"
           { audit_id := audit_id
             workflow_run_id := workflow_run_id
             environment := environment
             rollback_type := rollback_type
             image_tag := image_tag
             estimated_duration := "3-5 minutes"
             monitor_url := "https://github.com/" ++ env.repoOwner ++ "/"
                              ++ env.repoName ++ "/actions" } },
       tr1 ++ tr2 ++ wres.2 ++ tr4)

/-- `lambda_handler(event, context)` from the source: parse, validate
(`environment` present and in {dev, prod}, `user_id` present), default
`rollback_type`/`reason`, resolve `image_tag` when absent (404 when
resolution yields nothing), then audit/dispatch/update and the 200
response.  A `json.loads` failure or a dispatch exception reaches the
outer `except` and becomes status 500 with the message embedded. -/
def lambda_handler (env : Env) (event : EventBody) : Response × List Effect :=
  match parseBody env event with
  | .error e => (error_response 500 ("Internal server error: " ++ e), [])
  | .ok body =>
    if falsy body.environment then
      (error_response 400 "environment is required", [])
    else
      if body.environment.getD "" != "dev" && body.environment.getD "" != "prod" then
        (error_response 400 "environment must be \x27dev\x27 or \x27prod\x27", [])
      else if falsy body.user_id then
        (error_response 400 "user_id is required", [])
      else
        if falsy body.image_tag then
          if falsy (get_last_successful_image_tag env (body.environment.getD "")).1 then
            (error_response 404
              ("No previous successful deployment found for "
                ++ body.environment.getD ""),
             (get_last_successful_image_tag env (body.environment.getD "")).2)
          else
            dispatchPhase env (body.environment.getD "")
              (body.rollback_type.getD "terraform")
              ((get_last_successful_image_tag env (body.environment.getD "")).1.getD "")
              (body.user_id.getD "") (body.reason.getD "Manual rollback via UI")
              (get_last_successful_image_tag env (body.environment.getD "")).2
        else
          dispatchPhase env (body.environment.getD "")
            (body.rollback_type.getD "terraform") (body.image_tag.getD "")
            (body.user_id.getD "") (body.reason.getD "Manual rollback via UI") []

/-- The invocation attempted the dispatch POST: a
`githubDispatch` effect appears in the handler's trace. -/
def reachesDispatch (env : Env) (event : EventBody) : Prop :=
  ∃ p, Effect.githubDispatch p ∈ (lambda_handler env event).2

/-! Concrete fixtures used by the witness theorems. -/

/-- An environment in which every external call succeeds, the deploy-run
and rollback-run lists are empty, and the clock reads 1700000000. -/
def envA : Env :=
  { parseJson := fun _ => .error "Expecting value"
    deployRuns := .ok []
    artifactsOf := fun _ => .ok []
    downloadOf := fun _ => .ok ()
    dispatchResult := .ok ()
    rollbackRuns := .ok []
    putItemResult := .ok ()
    updateItemResult := .ok ()
    now := 1700000000
    nowIso := "2023-11-14T22:13:20" }

/-- A fully-specified valid request body. -/
def bodyA : Body :=
  { environment := some "prod"
    rollback_type := some "terraform"
    image_tag := some "abc123d"
    user_id := some "u@example.com"
    reason := none }

/-- A concrete deploy/rollback run. -/
def runA : Run :=
  { id := 42, artifacts_url := "https://api.github.com/runs/42/artifacts"
    head_sha := "0123456789abcdef" }

/-- A concrete artifact matching the `prod` naming convention. -/
def artifactA : Artifact :=
  { name := "last-successful-deployment-prod"
    archive_download_url := "https://api.github.com/artifacts/7/zip" }

/-! Helper lemmas shared by the claim theorems. -/

/-- Every external call of the version resolver is one of the three GitHub
GET requests; in particular the resolver never dispatches a workflow and
never touches the audit store. -/
theorem resolver_trace_shape (env : Env) (e : String) :
    ∀ x ∈ (get_last_successful_image_tag env e).2,
      x = Effect.githubGetDeployRuns ∨
      (∃ u, x = Effect.githubGetArtifacts u) ∨
      (∃ u, x = Effect.githubDownloadArtifact u) := by
  unfold get_last_successful_image_tag
  rcases hde : env.deployRuns with msg | runs
  · simp [hde]
  · rcases runs with _ | ⟨r, rs⟩
    · simp [hde]
    · rcases har : env.artifactsOf r.artifacts_url with msg | arts
      · simp [hde, har]
      · rcases hf : arts.find?
            (fun a => a.name == "last-successful-deployment-" ++ e) with _ | a
        · simp [hde, har, hf]
        · rcases hdl : env.downloadOf a.archive_download_url with msg | u <;>
            simp [hde, har, hf, hdl]

/-- The status code produced by the post-validation phase depends only on
the outcome of `trigger_github_workflow`. -/
theorem dispatchPhase_statusCode (env : Env)
    (e rt it uid rs : String) (tr1 : List Effect) :
    (dispatchPhase env e rt it uid rs tr1).1.statusCode =
      match (trigger_github_workflow env e rt it).1 with
      | .error _ => 500
      | .ok _ => 200 := by
  unfold dispatchPhase
  rcases htr : (trigger_github_workflow env e rt it).1 with msg | w <;>
    simp [htr, error_response]

/-- Any invocation whose trace contains a dispatch attempt is, as a whole,
a validation-passing run: the handler's result is the post-validation
phase applied to some arguments, with a pre-trace that contains no
audit-update effect. -/
theorem lambda_handler_dispatch_form (env : Env) (event : EventBody)
    (h : reachesDispatch env event) :
    ∃ e rt it uid rs tr1,
      lambda_handler env event = dispatchPhase env e rt it uid rs tr1 ∧
      ∀ a w s, Effect.auditUpdate a w s ∉ tr1 := by
  obtain ⟨p, hp⟩ := h
  unfold lambda_handler at hp ⊢
  rcases hpb : parseBody env event with msg | body <;> rw [hpb] at hp <;>
    dsimp only at hp ⊢
  · simp at hp
  · by_cases h1 : falsy body.environment = true
    · rw [if_pos h1] at hp; simp at hp
    · rw [if_neg h1] at hp ⊢
      by_cases h2 : (body.environment.getD "" != "dev" &&
          body.environment.getD "" != "prod") = true
      · rw [if_pos h2] at hp; simp at hp
      · rw [if_neg h2] at hp ⊢
        by_cases h3 : falsy body.user_id = true
        · rw [if_pos h3] at hp; simp at hp
        · rw [if_neg h3] at hp ⊢
          by_cases h4 : falsy body.image_tag = true
          · rw [if_pos h4] at hp ⊢
            by_cases h5 : falsy
                (get_last_successful_image_tag env (body.environment.getD "")).1 = true
            · rw [if_pos h5] at hp
              exfalso
              rcases resolver_trace_shape env (body.environment.getD "") _
                  (by simpa using hp) with h | ⟨u, h⟩ | ⟨u, h⟩ <;> simp at h
            · rw [if_neg h5] at hp ⊢
              refine ⟨_, _, _, _, _, _, rfl, ?_⟩
              intro a w s hm
              rcases resolver_trace_shape env (body.environment.getD "") _ hm with
                h | ⟨u, h⟩ | ⟨u, h⟩ <;> simp at h
          · rw [if_neg h4] at hp ⊢
            exact ⟨_, _, _, _, _, [], rfl, by intro a w s hm; simp at hm⟩

/-- Request parsing never consults the audit store. -/
theorem parseBody_audit_invariant (env : Env) (r1 r2 : Except String Unit)
    (event : EventBody) :
    parseBody { env with putItemResult := r1, updateItemResult := r2 } event
      = parseBody env event := rfl

/-- Version resolution never consults the audit store. -/
theorem resolver_audit_invariant (env : Env) (r1 r2 : Except String Unit)
    (e : String) :
    get_last_successful_image_tag
        { env with putItemResult := r1, updateItemResult := r2 } e
      = get_last_successful_image_tag env e := rfl

/-- Workflow dispatch never consults the audit store. -/
theorem trigger_audit_invariant (env : Env) (r1 r2 : Except String Unit)
    (e rt it : String) :
    trigger_github_workflow
        { env with putItemResult := r1, updateItemResult := r2 } e rt it
      = trigger_github_workflow env e rt it := rfl

/-- The audit-create step performs exactly one put attempt. -/
theorem log_trace_shape (env : Env) (uid e rt it rs : String) :
    ∃ item, (log_rollback_request env uid e rt it rs).2 = [Effect.auditPut item] := by
  unfold log_rollback_request
  rcases hput : env.putItemResult with msg | u <;> exact ⟨_, rfl⟩

/-- Post-validation phase when the dispatch POST succeeds and the
correlation lookup returns an empty run list: status 200 and the
sentinel run id `"unknown"`. -/
theorem dispatchPhase_corr_empty (env : Env)
    (hd : env.dispatchResult = Except.ok ())
    (hr : env.rollbackRuns = Except.ok [])
    (e rt it uid rs : String) (tr1 : List Effect) :
    (dispatchPhase env e rt it uid rs tr1).1.statusCode = 200 ∧
    ∃ m d, (dispatchPhase env e rt it uid rs tr1).1.body = RespBody.success m d ∧
      d.workflow_run_id = "unknown" := by
  unfold dispatchPhase trigger_github_workflow
  rw [hd, hr]
  exact ⟨rfl, _, _, rfl, rfl⟩

/-- Post-validation phase when the dispatch POST itself fails: status 500
with the raised message wrapped by the outer handler. -/
theorem dispatchPhase_dispatch_error (env : Env) (msg : String)
    (hd : env.dispatchResult = Except.error msg)
    (e rt it uid rs : String) (tr1 : List Effect) :
    (dispatchPhase env e rt it uid rs tr1).1
      = error_response 500 ("Internal server error: " ++ msg) := by
  unfold dispatchPhase trigger_github_workflow
  rw [hd]

/-- Post-validation phase when the dispatch POST succeeds but the
correlation lookup raises: status 500 with the raised message wrapped,
and no audit update was attempted in this phase. -/
theorem dispatchPhase_corr_error (env : Env) (msg : String)
    (hd : env.dispatchResult = Except.ok ())
    (hr : env.rollbackRuns = Except.error msg)
    (e rt it uid rs : String) (tr1 : List Effect)
    (htr1 : ∀ a w s, Effect.auditUpdate a w s ∉ tr1) :
    (dispatchPhase env e rt it uid rs tr1).1
      = error_response 500 ("Internal server error: " ++ msg) ∧
    ∀ a w s, Effect.auditUpdate a w s ∉ (dispatchPhase env e rt it uid rs tr1).2 := by
  unfold dispatchPhase trigger_github_workflow
  rw [hd, hr]
  refine ⟨rfl, ?_⟩
  intro a w s hm
  obtain ⟨item, hitem⟩ := log_trace_shape env uid e rt it rs
  dsimp only at hm
  rw [hitem] at hm
  rcases List.mem_append.mp hm with hm1 | hm2
  · rcases List.mem_append.mp hm1 with hm3 | hm4
    · exact htr1 a w s hm3
    · simp at hm4
  · simp at hm2

/-- The status code of the whole handler does not depend on the outcomes
of the audit-store put and update operations. -/
theorem handler_statusCode_audit_invariant (env : Env) (event : EventBody)
    (r1 r2 : Except String Unit) :
    (lambda_handler { env with putItemResult := r1, updateItemResult := r2 }
        event).1.statusCode
      = (lambda_handler env event).1.statusCode := by
  unfold lambda_handler
  rw [parseBody_audit_invariant]
  rcases hpb : parseBody env event with msg | body <;> dsimp only
  rw [resolver_audit_invariant]
  by_cases h1 : falsy body.environment = true
  · rw [if_pos h1, if_pos h1]
  · rw [if_neg h1, if_neg h1]
    by_cases h2 : (body.environment.getD "" != "dev" &&
        body.environment.getD "" != "prod") = true
    · rw [if_pos h2, if_pos h2]
    · rw [if_neg h2, if_neg h2]
      by_cases h3 : falsy body.user_id = true
      · rw [if_pos h3, if_pos h3]
      · rw [if_neg h3, if_neg h3]
        by_cases h4 : falsy body.image_tag = true
        · rw [if_pos h4, if_pos h4]
          by_cases h5 : falsy
              (get_last_successful_image_tag env (body.environment.getD "")).1 = true
          · rw [if_pos h5, if_pos h5]
          · rw [if_neg h5, if_neg h5,
              dispatchPhase_statusCode, dispatchPhase_statusCode,
              trigger_audit_invariant]
        · rw [if_neg h4, if_neg h4,
            dispatchPhase_statusCode, dispatchPhase_statusCode,
            trigger_audit_invariant]

/-! The claim theorems. -/

/-- C1: for every request that reaches dispatch, if the dispatch POST
succeeds but the correlation lookup returns an empty run list, the
reported workflow run id is the sentinel `"unknown"` and the handler
still returns status 200. -/
theorem rollback_c1_unknown_sentinel (env : Env) (event : EventBody)
    (hreach : reachesDispatch env event)
    (hd : env.dispatchResult = Except.ok ())
    (hr : env.rollbackRuns = Except.ok []) :
    (lambda_handler env event).1.statusCode = 200 ∧
    ∃ m d, (lambda_handler env event).1.body = RespBody.success m d ∧
      d.workflow_run_id = "unknown" := by
  obtain ⟨e, rt, it, uid, rs, tr1, heq, -⟩ :=
    lambda_handler_dispatch_form env event hreach
  rw [heq]
  exact dispatchPhase_corr_empty env hd hr e rt it uid rs tr1

/-- Witness for C1 at a concrete environment and request. -/
theorem rollback_c1_witness :
    (lambda_handler envA (EventBody.obj bodyA)).1.statusCode = 200 ∧
    ∃ m d, (lambda_handler envA (EventBody.obj bodyA)).1.body = RespBody.success m d ∧
      d.workflow_run_id = "unknown" :=
  rollback_c1_unknown_sentinel envA (EventBody.obj bodyA)
    ⟨{ ref := "roll-back"
       inputs := { environment := "prod", rollback_type := "terraform"
                   image_tag := "abc123d", confirm := "ROLLBACK" } },
     by decide⟩
    rfl rfl

/-- C2: a fully-successful request with environment `prod`, type
`terraform`, tag `abc123d`, user `u@example.com` produces exactly one
audit put (status `initiated`, null run id), one dispatch POST with
`confirm = "ROLLBACK"`, one audit update to `triggered`, and a 200
response whose `data` carries the tag and the other documented fields. -/
theorem rollback_c2_end_to_end (env : Env) (run : Run) (rest : List Run)
    (hd : env.dispatchResult = Except.ok ())
    (hr : env.rollbackRuns = Except.ok (run :: rest))
    (hput : env.putItemResult = Except.ok ())
    (hupd : env.updateItemResult = Except.ok ()) :
    lambda_handler env (EventBody.obj
      { environment := some "prod", rollback_type := some "terraform"
        image_tag := some "abc123d", user_id := some "u@example.com"
        reason := none })
    = ({ statusCode := 200
         headers := successHeaders
         body := RespBody.success "Rollback initiated"
           { audit_id := "prod-" ++ toString env.now
             workflow_run_id := toString run.id
             environment := "prod"
             rollback_type := "terraform"
             image_tag := "abc123d"
             estimated_duration := "3-5 minutes"
             monitor_url := "https://github.com/" ++ env.repoOwner ++ "/"
                              ++ env.repoName ++ "/actions" } },
       [Effect.auditPut
          { audit_id := "prod-" ++ toString env.now, timestamp := env.nowIso
            user_id := "u@example.com", environment := "prod"
            rollback_type := "terraform", image_tag := "abc123d"
            reason := "Manual rollback via UI", status := "initiated"
            workflow_run_id := none },
        Effect.githubDispatch
          { ref := "roll-back"
            inputs := { environment := "prod", rollback_type := "terraform"
                        image_tag := "abc123d", confirm := "ROLLBACK" } },
        Effect.githubGetRollbackRuns,
        Effect.auditUpdate ("prod-" ++ toString env.now) (toString run.id)
          "triggered"]) := by
  unfold lambda_handler dispatchPhase log_rollback_request
    trigger_github_workflow update_audit_log
  rw [hd, hr, hput, hupd]
  rfl

/-- Witness for C2 at a concrete environment. -/
theorem rollback_c2_witness :
    (lambda_handler { envA with rollbackRuns := Except.ok [runA] }
      (EventBody.obj
        { environment := some "prod", rollback_type := some "terraform"
          image_tag := some "abc123d", user_id := some "u@example.com"
          reason := none })).1.statusCode = 200 := by
  rw [rollback_c2_end_to_end { envA with rollbackRuns := Except.ok [runA] }
    runA [] rfl rfl rfl rfl]

/-- C3: a request whose parsed body lacks `environment` (or has it
empty), has an `environment` outside {dev, prod}, or lacks `user_id`
gets a 400 response with one of the three validation messages, and no
external call is made. -/
theorem rollback_c3_validation_400 (env : Env) (event : EventBody) (body : Body)
    (hpb : parseBody env event = Except.ok body)
    (h : falsy body.environment = true ∨
         (falsy body.environment = false ∧
           (body.environment.getD "" != "dev" &&
             body.environment.getD "" != "prod") = true) ∨
         (falsy body.environment = false ∧
           (body.environment.getD "" != "dev" &&
             body.environment.getD "" != "prod") = false ∧
           falsy body.user_id = true)) :
    (lambda_handler env event).1.statusCode = 400 ∧
    (lambda_handler env event).2 = [] ∧
    ((lambda_handler env event).1.body = RespBody.err "environment is required" ∨
     (lambda_handler env event).1.body
       = RespBody.err "environment must be \x27dev\x27 or \x27prod\x27" ∨
     (lambda_handler env event).1.body = RespBody.err "user_id is required") := by
  unfold lambda_handler
  rw [hpb]
  dsimp only
  rcases h with h1 | ⟨h1, h2⟩ | ⟨h1, h2, h3⟩
  · rw [if_pos h1]
    exact ⟨rfl, rfl, Or.inl rfl⟩
  · rw [if_neg (by simp [h1]), if_pos h2]
    exact ⟨rfl, rfl, Or.inr (Or.inl rfl)⟩
  · rw [if_neg (by simp [h1]), if_neg (by simp [h2]), if_pos h3]
    exact ⟨rfl, rfl, Or.inr (Or.inr rfl)⟩

/-- Witness for C3 at a request with an empty body. -/
theorem rollback_c3_witness :
    (lambda_handler envA (EventBody.obj {})).1.statusCode = 400 ∧
    (lambda_handler envA (EventBody.obj {})).2 = [] ∧
    ((lambda_handler envA (EventBody.obj {})).1.body
       = RespBody.err "environment is required" ∨
     (lambda_handler envA (EventBody.obj {})).1.body
       = RespBody.err "environment must be \x27dev\x27 or \x27prod\x27" ∨
     (lambda_handler envA (EventBody.obj {})).1.body
       = RespBody.err "user_id is required") :=
  rollback_c3_validation_400 envA (EventBody.obj {}) {} rfl (Or.inl rfl)

/-- C4: the version resolver returns `none` when the deploy-run query
raises, when it returns no runs, when the artifact listing raises, or
when the artifact download raises; and a valid request without an
`image_tag` whose resolution yields `none` gets a 404. -/
theorem rollback_c4_resolver_best_effort :
    (∀ (env : Env) (e msg : String), env.deployRuns = Except.error msg →
       (get_last_successful_image_tag env e).1 = none)
  ∧ (∀ (env : Env) (e : String), env.deployRuns = Except.ok [] →
       (get_last_successful_image_tag env e).1 = none)
  ∧ (∀ (env : Env) (e msg : String) (r : Run) (rs : List Run),
       env.deployRuns = Except.ok (r :: rs) →
       env.artifactsOf r.artifacts_url = Except.error msg →
       (get_last_successful_image_tag env e).1 = none)
  ∧ (∀ (env : Env) (e msg : String) (r : Run) (rs : List Run)
       (arts : List Artifact) (a : Artifact),
       env.deployRuns = Except.ok (r :: rs) →
       env.artifactsOf r.artifacts_url = Except.ok arts →
       arts.find? (fun x => x.name == "last-successful-deployment-" ++ e)
         = some a →
       env.downloadOf a.archive_download_url = Except.error msg →
       (get_last_successful_image_tag env e).1 = none)
  ∧ (∀ (env : Env) (body : Body),
       falsy body.environment = false →
       (body.environment.getD "" != "dev" &&
         body.environment.getD "" != "prod") = false →
       falsy body.user_id = false →
       falsy body.image_tag = true →
       (get_last_successful_image_tag env (body.environment.getD "")).1 = none →
       (lambda_handler env (EventBody.obj body)).1.statusCode = 404) := by
  refine ⟨?_, ?_, ?_, ?_, ?_⟩
  · intro env e msg h
    unfold get_last_successful_image_tag
    rw [h]
  · intro env e h
    unfold get_last_successful_image_tag
    rw [h]
  · intro env e msg r rs h1 h2
    unfold get_last_successful_image_tag
    rw [h1]
    dsimp only
    rw [h2]
  · intro env e msg r rs arts a h1 h2 h3 h4
    unfold get_last_successful_image_tag
    rw [h1]
    dsimp only
    rw [h2]
    dsimp only
    rw [h3]
    dsimp only
    rw [h4]
  · intro env body h1 h2 h3 h4 h5
    unfold lambda_handler
    dsimp only [parseBody]
    rw [if_neg (by simp [h1]), if_neg (by simp [h2]), if_neg (by simp [h3]),
      if_pos h4, if_pos (show falsy
        (get_last_successful_image_tag env (body.environment.getD "")).1 = true
        by rw [h5]; rfl)]
    rfl

/-- Witness for C4: no successful deploy runs for `dev` yields a 404. -/
theorem rollback_c4_witness :
    (lambda_handler envA
      (EventBody.obj { environment := some "dev", user_id := some "u" })
      ).1.statusCode = 404 :=
  rollback_c4_resolver_best_effort.2.2.2.2 envA
    { environment := some "dev", user_id := some "u" } rfl rfl rfl rfl rfl

/-- C5: with a successful deploy run whose artifact list contains an
artifact named `last-successful-deployment-<environment>` (and the
artifact download returning normally), the resolved version is the first
7 characters of that run's head SHA; with no artifact of that name, the
resolver returns `none` even though a successful run exists. -/
theorem rollback_c5_resolver_sha :
    (∀ (env : Env) (e : String) (r : Run) (rs : List Run)
       (arts : List Artifact) (a : Artifact),
       env.deployRuns = Except.ok (r :: rs) →
       env.artifactsOf r.artifacts_url = Except.ok arts →
       (∀ u, env.downloadOf u = Except.ok ()) →
       a ∈ arts → a.name = "last-successful-deployment-" ++ e →
       (get_last_successful_image_tag env e).1 = some (r.head_sha.take 7))
  ∧ (∀ (env : Env) (e : String) (r : Run) (rs : List Run)
       (arts : List Artifact),
       env.deployRuns = Except.ok (r :: rs) →
       env.artifactsOf r.artifacts_url = Except.ok arts →
       (∀ a ∈ arts, ¬ a.name = "last-successful-deployment-" ++ e) →
       (get_last_successful_image_tag env e).1 = none) := by
  constructor
  · intro env e r rs arts a h1 h2 h3 hmem hname
    have hfind : ((arts.find?
        (fun x => x.name == "last-successful-deployment-" ++ e)).isSome) := by
      rw [List.find?_isSome]
      exact ⟨a, hmem, by simp [hname]⟩
    obtain ⟨b, hb⟩ := Option.isSome_iff_exists.mp hfind
    unfold get_last_successful_image_tag
    rw [h1]
    dsimp only
    rw [h2]
    dsimp only
    rw [hb]
    dsimp only
    rw [h3 b.archive_download_url]
  · intro env e r rs arts h1 h2 h3
    have hfind : arts.find?
        (fun x => x.name == "last-successful-deployment-" ++ e) = none := by
      rw [List.find?_eq_none]
      intro x hx
      simpa using h3 x hx
    unfold get_last_successful_image_tag
    rw [h1]
    dsimp only
    rw [h2]
    dsimp only
    rw [hfind]

/-- Witness for C5: a matching `prod` artifact resolves to the short SHA
of the latest successful run. -/
theorem rollback_c5_witness :
    (get_last_successful_image_tag
      { envA with deployRuns := Except.ok [runA]
                  artifactsOf := fun _ => Except.ok [artifactA] }
      "prod").1 = some (runA.head_sha.take 7) :=
  rollback_c5_resolver_sha.1
    { envA with deployRuns := Except.ok [runA]
                artifactsOf := fun _ => Except.ok [artifactA] }
    "prod" runA [] [artifactA] artifactA rfl rfl (fun _ => rfl)
    (by simp) (by decide)

/-- C6: audit-store failures never change the handler's outcome: the
status code is invariant under any put/update outcomes, a failed create
yields the fallback id `audit-<epoch-seconds>`, and the update step
always returns normally with exactly one attempted update. -/
theorem rollback_c6_audit_best_effort :
    (∀ (env : Env) (event : EventBody) (r1 r2 : Except String Unit),
       (lambda_handler { env with putItemResult := r1, updateItemResult := r2 }
           event).1.statusCode
         = (lambda_handler env event).1.statusCode)
  ∧ (∀ (env : Env) (uid e rt it rs msg : String),
       env.putItemResult = Except.error msg →
       (log_rollback_request env uid e rt it rs).1
         = "audit-" ++ toString env.now)
  ∧ (∀ (env : Env) (a w : String),
       update_audit_log env a w
         = ((), [Effect.auditUpdate a w "triggered"])) := by
  refine ⟨handler_statusCode_audit_invariant, ?_, ?_⟩
  · intro env uid e rt it rs msg h
    unfold log_rollback_request
    rw [h]
  · intro env a w
    unfold update_audit_log
    rcases h : env.updateItemResult with msg | u <;> rfl

/-- Witness for C6 at a concrete failing store. -/
theorem rollback_c6_witness :
    ((lambda_handler
        { envA with putItemResult := Except.error "boom"
                    updateItemResult := Except.error "boom" }
        (EventBody.obj bodyA)).1.statusCode
      = (lambda_handler envA (EventBody.obj bodyA)).1.statusCode) ∧
    ((log_rollback_request { envA with putItemResult := Except.error "boom" }
        "u" "prod" "terraform" "abc123d" "r").1
      = "audit-" ++ toString
          ({ envA with putItemResult := Except.error "boom" } : Env).now) ∧
    (update_audit_log envA "prod-1700000000" "42"
      = ((), [Effect.auditUpdate "prod-1700000000" "42" "triggered"])) :=
  ⟨rollback_c6_audit_best_effort.1 envA (EventBody.obj bodyA)
     (Except.error "boom") (Except.error "boom"),
   rollback_c6_audit_best_effort.2.1
     { envA with putItemResult := Except.error "boom" }
     "u" "prod" "terraform" "abc123d" "r" "boom" rfl,
   rollback_c6_audit_best_effort.2.2 envA "prod-1700000000" "42"⟩

/-- C7: when the dispatch POST itself fails, the failure propagates out
of the dispatcher and the handler answers 500 with the underlying
message embedded in the body. -/
theorem rollback_c7_dispatch_failure_500 (env : Env) (event : EventBody)
    (msg : String)
    (hreach : reachesDispatch env event)
    (hd : env.dispatchResult = Except.error msg) :
    (lambda_handler env event).1
      = error_response 500 ("Internal server error: " ++ msg) := by
  obtain ⟨e, rt, it, uid, rs, tr1, heq, -⟩ :=
    lambda_handler_dispatch_form env event hreach
  rw [heq]
  exact dispatchPhase_dispatch_error env msg hd e rt it uid rs tr1

/-- Witness for C7 at a concrete rejected dispatch. -/
theorem rollback_c7_witness :
    (lambda_handler { envA with dispatchResult := Except.error "422 Client Error" }
      (EventBody.obj bodyA)).1
      = error_response 500 ("Internal server error: " ++ "422 Client Error") :=
  rollback_c7_dispatch_failure_500
    { envA with dispatchResult := Except.error "422 Client Error" }
    (EventBody.obj bodyA) "422 Client Error"
    ⟨{ ref := "roll-back"
       inputs := { environment := "prod", rollback_type := "terraform"
                   image_tag := "abc123d", confirm := "ROLLBACK" } },
     by decide⟩
    rfl

/-- C8: a successful audit create returns
`<environment>-<integer-epoch-seconds>`, so two requests for the same
environment handled within the same epoch second receive colliding audit
ids. -/
theorem rollback_c8_audit_id_format :
    (∀ (env : Env) (uid e rt it rs : String),
       env.putItemResult = Except.ok () →
       (log_rollback_request env uid e rt it rs).1
         = e ++ "-" ++ toString env.now)
  ∧ (∀ (env1 env2 : Env) (uid e rt it rs : String),
       env1.putItemResult = Except.ok () → env2.putItemResult = Except.ok () →
       env1.now = env2.now →
       (log_rollback_request env1 uid e rt it rs).1
         = (log_rollback_request env2 uid e rt it rs).1) := by
  constructor
  · intro env uid e rt it rs h
    unfold log_rollback_request
    rw [h]
  · intro env1 env2 uid e rt it rs h1 h2 hn
    unfold log_rollback_request
    rw [h1, h2]
    dsimp only
    rw [hn]

/-- Witness for C8: two identical requests in the same second collide. -/
theorem rollback_c8_witness :
    ((log_rollback_request envA "u@example.com" "prod" "terraform" "abc123d"
        "r").1 = "prod" ++ "-" ++ toString envA.now) ∧
    ((log_rollback_request envA "u@example.com" "prod" "terraform" "abc123d"
        "r").1
      = (log_rollback_request { envA with nowIso := "other" } "u@example.com"
          "prod" "terraform" "abc123d" "r").1) :=
  ⟨rollback_c8_audit_id_format.1 envA "u@example.com" "prod" "terraform"
     "abc123d" "r" rfl,
   rollback_c8_audit_id_format.2 envA { envA with nowIso := "other" }
     "u@example.com" "prod" "terraform" "abc123d" "r" rfl rfl rfl⟩

/-- C9: when the dispatch POST is accepted but the correlation lookup
raises, the exception propagates: the handler answers 500 with the
message embedded, and no audit update is ever attempted, leaving the
record in status `initiated`. -/
theorem rollback_c9_correlation_failure_500 (env : Env) (event : EventBody)
    (msg : String)
    (hreach : reachesDispatch env event)
    (hd : env.dispatchResult = Except.ok ())
    (hr : env.rollbackRuns = Except.error msg) :
    (lambda_handler env event).1
      = error_response 500 ("Internal server error: " ++ msg) ∧
    ∀ a w s, Effect.auditUpdate a w s ∉ (lambda_handler env event).2 := by
  obtain ⟨e, rt, it, uid, rs, tr1, heq, hupd⟩ :=
    lambda_handler_dispatch_form env event hreach
  rw [heq]
  exact dispatchPhase_corr_error env msg hd hr e rt it uid rs tr1 hupd

/-- Witness for C9 at a concrete failing correlation lookup. -/
theorem rollback_c9_witness :
    (lambda_handler { envA with rollbackRuns := Except.error "503 Server Error" }
        (EventBody.obj bodyA)).1
      = error_response 500 ("Internal server error: " ++ "503 Server Error") ∧
    ∀ a w s, Effect.auditUpdate a w s ∉
      (lambda_handler { envA with rollbackRuns := Except.error "503 Server Error" }
        (EventBody.obj bodyA)).2 :=
  rollback_c9_correlation_failure_500
    { envA with rollbackRuns := Except.error "503 Server Error" }
    (EventBody.obj bodyA) "503 Server Error"
    ⟨{ ref := "roll-back"
       inputs := { environment := "prod", rollback_type := "terraform"
                   image_tag := "abc123d", confirm := "ROLLBACK" } },
     by decide⟩
    rfl rfl

/-- C10: a string body that fails JSON parsing is only caught by the
outer catch-all: the handler answers 500 (not 400) with the parse
error's message embedded, and makes no external call. -/
theorem rollback_c10_parse_failure_500 (env : Env) (s msg : String)
    (h : env.parseJson s = Except.error msg) :
    lambda_handler env (EventBody.str s)
      = (error_response 500 ("Internal server error: " ++ msg), []) := by
  unfold lambda_handler
  have hpb : parseBody env (EventBody.str s) = Except.error msg := h
  rw [hpb]

/-- Witness for C10 at a concrete malformed body. -/
theorem rollback_c10_witness :
    lambda_handler envA (EventBody.str "not json")
      = (error_response 500 ("Internal server error: " ++ "Expecting value"),
         []) :=
  rollback_c10_parse_failure_500 envA "not json" "Expecting value" rfl

end Rollback
